import Mathlib

/-!
Verification of the air-quality-monitor core (station ingestion, geo
resolver, alert engine, scheduler configuration) against a shallow
embedding of `app.py`, `config.py`, `models.py` and `utils/distance.py`.

Conventions of the embedding:
* Python `record.get(k)` values are `Option String` (`none` = key absent).
* Python truthiness of such a value (`if site_id:`) is `pyTruthy`.
* `float(...)` / `int(...)` over decimal strings are modelled by total
  parsers into `Option ℚ` / `Option Int`; `none` models `ValueError`.
* The database session is a `List` of rows; an aborted batch
  (`except Exception: db.session.rollback()`) is modelled by an
  `Option`-valued batch processor, `none` meaning "rolled back".
* `datetime` values are integer timestamps (seconds); `timedelta(hours=1)`
  is `3600`.
-/

/-- Python truthiness of an optional string: `None` and `""` are falsy. -/
def pyTruthy (v : Option String) : Bool :=
  match v with
  | none => false
  | some s => !s.isEmpty

/-- The string value of a truthy optional string. -/
def strVal (v : Option String) : String :=
  v.getD ""

/-- ASCII decimal digit test, as used by Python literal parsing. -/
def isDigitChar (c : Char) : Bool :=
  '0' ≤ c && c ≤ '9'

/-- Value of a list of decimal digit characters. -/
def digitsVal (l : List Char) : Nat :=
  l.foldl (fun n c => n * 10 + (c.toNat - 48)) 0

/-- Split an optional leading sign off a character list, returning
`(negative?, rest)`. -/
def splitSign (l : List Char) : Bool × List Char :=
  match l with
  | '-' :: rest => (true, rest)
  | '+' :: rest => (false, rest)
  | _ => (false, l)

/-- ASCII whitespace, as stripped by Python `int(...)` and `float(...)`. -/
def isSpaceChar (c : Char) : Bool :=
  c = ' ' || c = '\t' || c = '\n' || c = '\r'

/-- Strip whitespace from both ends of a character list. -/
def trimAscii (l : List Char) : List Char :=
  ((l.dropWhile isSpaceChar).reverse.dropWhile isSpaceChar).reverse

/-- Model of Python `int(s)` on a string: optional surrounding whitespace,
optional sign, then a nonempty run of decimal digits; anything else raises
`ValueError`, modelled as `none`. -/
def pythonInt (s : String) : Option Int :=
  let l := trimAscii s.toList
  let sr := splitSign l
  if sr.2.isEmpty then none
  else if sr.2.all isDigitChar then
    some (if sr.1 then -(digitsVal sr.2 : Int) else (digitsVal sr.2 : Int))
  else none

/-- Value of an unsigned decimal string (`"12"`, `"12.5"`, `".5"`, `"12."`)
as a rational, or `none` if the characters are not of that shape. -/
def parseUnsignedDec (l : List Char) : Option ℚ :=
  let ip := l.takeWhile isDigitChar
  let rest := l.dropWhile isDigitChar
  match rest with
  | [] => if ip.isEmpty then none else some (digitsVal ip : ℚ)
  | '.' :: fp =>
      if fp.all isDigitChar && !(ip.isEmpty && fp.isEmpty) then
        some ((digitsVal ip : ℚ) + (digitsVal fp : ℚ) / ((10 : ℚ) ^ fp.length))
      else none
  | _ => none

/-- Model of Python `float(s)` on the provider's plain decimal strings:
optional surrounding whitespace, optional sign, decimal digits with an
optional fractional part; anything else raises `ValueError`, modelled as
`none`. -/
def pythonFloat (s : String) : Option ℚ :=
  let l := trimAscii s.toList
  let sr := splitSign l
  (parseUnsignedDec sr.2).map (fun q => if sr.1 then -q else q)

/-- `safe_int_conversion` from `fetch_and_store_realtime_aqi` (app.py
lines 193-197): `int(value) if value else None`, with `ValueError`
caught and turned into `None`. -/
def safe_int_conversion (value : Option String) : Option Int :=
  match value with
  | none => none
  | some s => if s.isEmpty then none else pythonInt s

/-- Parse a fixed-width run of decimal digits of length 1 to `w`, as
`datetime.strptime` does for `%m`, `%d`, `%H`, `%M`, `%S`. Returns the
value and the remaining characters. -/
def takeDigits (w : Nat) (l : List Char) : Option (Nat × List Char) :=
  let ds := (l.takeWhile isDigitChar).take w
  if ds.isEmpty then none else some (digitsVal ds, l.drop ds.length)

/-- Expect a literal character at the head of the list. -/
def expectChar (c : Char) (l : List Char) : Option (List Char) :=
  match l with
  | x :: rest => if x = c then some rest else none
  | [] => none

/-- Model of `datetime.strptime(s, '%Y/%m/%d %H:%M:%S')` (app.py line 207):
the six numeric fields, range-checked, encoded as a single natural number;
a string not of this shape raises `ValueError`, modelled as `none`. -/
def strptimeSlashed (s : String) : Option Nat :=
  match takeDigits 4 s.toList with
  | none => none
  | some (y, r1) =>
    match expectChar '/' r1 with
    | none => none
    | some r2 =>
      match takeDigits 2 r2 with
      | none => none
      | some (mo, r3) =>
        match expectChar '/' r3 with
        | none => none
        | some r4 =>
          match takeDigits 2 r4 with
          | none => none
          | some (d, r5) =>
            match expectChar ' ' r5 with
            | none => none
            | some r6 =>
              match takeDigits 2 r6 with
              | none => none
              | some (h, r7) =>
                match expectChar ':' r7 with
                | none => none
                | some r8 =>
                  match takeDigits 2 r8 with
                  | none => none
                  | some (mi, r9) =>
                    match expectChar ':' r9 with
                    | none => none
                    | some r10 =>
                      match takeDigits 2 r10 with
                      | none => none
                      | some (sec, r11) =>
                        if r11.isEmpty && 1 ≤ mo && mo ≤ 12 && 1 ≤ d &&
                            d ≤ 31 && h ≤ 23 && mi ≤ 59 && sec ≤ 61 then
                          some (((((y * 13 + mo) * 32 + d) * 24 + h) * 60
                            + mi) * 62 + sec)
                        else none

/-- A row of the `stations` table (models.py lines 7-22): identity and
metadata columns plus the latest-reading snapshot columns. -/
structure StationR where
  site_id : String
  name : String
  county : Option String
  latitude : Option ℚ
  longitude : Option ℚ
  region : String
  aqi : Option Int
  status : Option String
  pm25 : Option Int
  pm10 : Option Int
  publish_time : Option Nat
deriving DecidableEq, Repr

/-- `COUNTY_TO_REGION` (app.py lines 38-44), as an association list. -/
def COUNTY_TO_REGION : List (String × String) :=
  [("基隆市", "北"), ("臺北市", "北"), ("新北市", "北"), ("桃園市", "北"),
   ("新竹市", "北"), ("新竹縣", "北"), ("苗栗縣", "北"),
   ("臺中市", "中"), ("彰化縣", "中"), ("南投縣", "中"), ("雲林縣", "中"),
   ("嘉義市", "南"), ("嘉義縣", "南"), ("臺南市", "南"), ("高雄市", "南"),
   ("屏東縣", "南"),
   ("宜蘭縣", "東"), ("花蓮縣", "東"), ("臺東縣", "東"),
   ("澎湖縣", "離島"), ("金門縣", "離島"), ("連江縣", "離島")]

/-- `COUNTY_TO_REGION.get(county, "未知區域")` (app.py line 140); the
`county` key itself comes from `record.get('county')` and may be absent. -/
def regionOf (county : Option String) : String :=
  match county with
  | none => "未知區域"
  | some c =>
    match COUNTY_TO_REGION.find? (fun p => p.1 == c) with
    | some p => p.2
    | none => "未知區域"

/-- One record of the station-metadata endpoint's `records` array, with the
fields read by `fetch_and_store_all_stations` (app.py lines 134-138). -/
structure StationRecord where
  sitename : Option String
  siteid : Option String
  county : Option String
  twd97lat : Option String
  twd97lon : Option String
deriving DecidableEq, Repr

/-- `float(record.get(k)) if record.get(k) else None` (app.py lines
137-138). The outer `none` models the uncaught `ValueError` that
`float` raises on a truthy non-numeric string; `some none` is a stored
null coordinate. -/
def parseCoord (v : Option String) : Option (Option ℚ) :=
  match v with
  | none => some none
  | some s =>
    if s.isEmpty then some none
    else (pythonFloat s).map some

/-- Update the metadata columns of a station row in place, as the
`existing_station.<field> = ...` assignments do (app.py lines 156-160). -/
def setMeta (st : StationR) (name : String) (county : Option String)
    (lat lon : Option ℚ) (region : String) : StationR :=
  { st with
    name := name
    county := county
    latitude := lat
    longitude := lon
    region := region }

/-- A freshly inserted station row (app.py lines 145-152): reading columns
start out null. -/
def newStation (siteid name : String) (county : Option String)
    (lat lon : Option ℚ) (region : String) : StationR :=
  { site_id := siteid
    name := name
    county := county
    latitude := lat
    longitude := lon
    region := region
    aqi := none
    status := none
    pm25 := none
    pm10 := none
    publish_time := none }

/-- Update the first row carrying a given site code, in place, leaving all
other rows untouched (the `Station.query.filter_by(site_id=...).first()`
row). -/
def updateFirstMeta (dbst : List StationR) (siteid name : String)
    (county : Option String) (lat lon : Option ℚ) (region : String) :
    List StationR :=
  match dbst with
  | [] => []
  | st :: rest =>
    if st.site_id == siteid then setMeta st name county lat lon region :: rest
    else st :: updateFirstMeta rest siteid name county lat lon region

/-- Does a row with this site code exist (`existing_station` non-`None`)? -/
def hasSite (dbst : List StationR) (siteid : String) : Bool :=
  dbst.any (fun st => st.site_id == siteid)

/-- Insert-or-update of one station-metadata record keyed by site code
(app.py lines 143-161). -/
def upsertStation (dbst : List StationR) (siteid name : String)
    (county : Option String) (lat lon : Option ℚ) (region : String) :
    List StationR :=
  if hasSite dbst siteid then
    updateFirstMeta dbst siteid name county lat lon region
  else dbst ++ [newStation siteid name county lat lon region]

/-- The state-changing effect of one metadata record once its coordinate
fields parsed: skipped unless both site code and name are truthy, else
upserted (app.py lines 142-161). The coordinate `getD` arms are only
reached under parse success. -/
def stationAct (dbst : List StationR) (r : StationRecord) : List StationR :=
  if pyTruthy r.siteid && pyTruthy r.sitename then
    upsertStation dbst (strVal r.siteid) (strVal r.sitename) r.county
      ((parseCoord r.twd97lat).getD none) ((parseCoord r.twd97lon).getD none)
      (regionOf r.county)
  else dbst

/-- The record loop of `fetch_and_store_all_stations` (app.py lines
133-161): processes records in order; a `ValueError` from `float` on a
coordinate escapes the loop, modelled by `none`. -/
def processStationRecords (dbst : List StationR) :
    List StationRecord → Option (List StationR)
  | [] => some dbst
  | r :: rs =>
    match parseCoord r.twd97lat, parseCoord r.twd97lon with
    | some _, some _ => processStationRecords (stationAct dbst r) rs
    | _, _ => none

/-- `fetch_and_store_all_stations` on a decoded `records` array (app.py
lines 119-173): on normal completion the batch is committed; on an
exception the whole session is rolled back (lines 171-173), leaving the
table as it was. -/
def fetch_and_store_all_stations (dbst : List StationR)
    (records : List StationRecord) : List StationR :=
  (processStationRecords dbst records).getD dbst

/-- One record of the real-time readings endpoint's `records` array, with
the fields read by `fetch_and_store_realtime_aqi` (app.py lines 190-203). -/
structure ReadingRecord where
  siteid : Option String
  aqi : Option String
  status : Option String
  pm25 : Option String
  pm10 : Option String
  publishtime : Option String
deriving DecidableEq, Repr

/-- `publish_time` parsing (app.py lines 203-209): falsy string stays
`None`; a truthy string is parsed, with `ValueError` caught so an
unparseable timestamp yields `None` for that record only. -/
def parsePublishTime (v : Option String) : Option Nat :=
  match v with
  | none => none
  | some s => if s.isEmpty then none else strptimeSlashed s

/-- Replace all five reading columns of a station row (app.py lines
214-218). -/
def setReading (st : StationR) (aqi : Option Int) (status : Option String)
    (pm25 pm10 : Option Int) (pt : Option Nat) : StationR :=
  { st with
    aqi := aqi
    status := status
    pm25 := pm25
    pm10 := pm10
    publish_time := pt }

/-- Update the reading columns of the first row carrying a given site code;
a site code matching no row changes nothing (the unmatched warning,
app.py lines 220-221). -/
def updateFirstReading (dbst : List StationR) (siteid : String)
    (aqi : Option Int) (status : Option String) (pm25 pm10 : Option Int)
    (pt : Option Nat) : List StationR :=
  match dbst with
  | [] => []
  | st :: rest =>
    if st.site_id == siteid then setReading st aqi status pm25 pm10 pt :: rest
    else st :: updateFirstReading rest siteid aqi status pm25 pm10 pt

/-- The effect of one real-time reading record (app.py lines 190-221):
numeric fields parsed defensively, timestamp parsed with fallback, and the
matching station's reading columns replaced; a falsy site code or an
unknown site code leaves the table unchanged. -/
def readingAct (dbst : List StationR) (r : ReadingRecord) : List StationR :=
  if pyTruthy r.siteid then
    updateFirstReading dbst (strVal r.siteid) (safe_int_conversion r.aqi)
      r.status (safe_int_conversion r.pm25) (safe_int_conversion r.pm10)
      (parsePublishTime r.publishtime)
  else dbst

/-- `fetch_and_store_realtime_aqi` on a decoded `records` array (app.py
lines 176-222): every record's effect is applied in order and the batch is
committed (each per-record parse failure is handled locally, so the loop
itself never raises). -/
def fetch_and_store_realtime_aqi (dbst : List StationR)
    (records : List ReadingRecord) : List StationR :=
  records.foldl readingAct dbst

/-- First row carrying a given site code (`filter_by(site_id=...).first()`). -/
def lookupSt (dbst : List StationR) (siteid : String) : Option StationR :=
  dbst.find? (fun st => st.site_id == siteid)

/-- Does a station row carry both coordinates (the
`station.latitude is not None and station.longitude is not None` guard,
app.py line 670)? -/
def hasCoords (st : StationR) : Bool :=
  st.latitude.isSome && st.longitude.isSome

/-- The distance from the query point to a station under a given distance
function, read off the station's coordinates (only meaningful under
`hasCoords`). -/
def distTo (d : ℚ → ℚ → ℚ → ℚ → ℚ) (ulat ulon : ℚ) (st : StationR) : ℚ :=
  d ulat ulon (st.latitude.getD 0) (st.longitude.getD 0)

/-- One iteration of the nearest-station loop (app.py lines 669-674):
stations with a null coordinate are skipped, and the running minimum is
replaced only on a strictly smaller distance, so the first minimum wins.
The accumulator `none` models the initial `min_distance = float('inf')`,
`nearest_station = None` state. -/
def nearestStep (d : ℚ → ℚ → ℚ → ℚ → ℚ) (ulat ulon : ℚ)
    (acc : Option (StationR × ℚ)) (st : StationR) : Option (StationR × ℚ) :=
  if hasCoords st then
    let dist := distTo d ulat ulon st
    match acc with
    | none => some (st, dist)
    | some best => if dist < best.2 then some (st, dist) else some best
  else acc

/-- The nearest-station computation shared by
`get_nearest_station_aqi_message` (app.py lines 664-674) and
`send_personalized_aqi_push_job` (lines 708-716), parameterized by the
distance function (`calculate_distance` computes the haversine distance in
kilometers with floating-point trigonometry, which this embedding keeps
abstract). Returns the chosen station and its distance, or `none` when no
candidate carries coordinates. -/
def nearestStation (d : ℚ → ℚ → ℚ → ℚ → ℚ) (ulat ulon : ℚ)
    (stations : List StationR) : Option (StationR × ℚ) :=
  stations.foldl (nearestStep d ulat ulon) none

/-- `timedelta(hours=1)` (app.py line 773), in seconds: the cooldown
window of the alert engine. -/
def COOLDOWN_WINDOW : Int := 3600

/-- A row of `line_user_station_preferences` (models.py lines 58-68). -/
structure Preference where
  line_user_id : String
  station_id : Nat
  threshold_value : Int
  last_alert_sent_at : Option Int
deriving DecidableEq, Repr

/-- The environment one alert-engine pass runs in: the evaluation instant,
the current AQI per station id (`db.session.refresh(station)` re-reads it,
app.py line 760), whether each user is still subscribed, and the outcome
the notification transport would report for each (user, station) delivery
attempt (`send_line_message` returns `True`/`False`, app.py lines
236-246, catching every transport exception). -/
structure PassEnv where
  now : Int
  aqiOf : Nat → Option Int
  subscribed : String → Bool
  deliver : String → Nat → Bool

/-- The fire decision of `send_personalized_aqi_alerts_job` for one
preference (app.py lines 765-773): the AQI must be non-null and at least
the threshold, and either no alert was ever sent or strictly more than
`timedelta(hours=1)` has elapsed since the last one. -/
def shouldNotify (aqi : Option Int) (threshold : Int) (last : Option Int)
    (now : Int) : Bool :=
  match aqi with
  | none => false
  | some a =>
    threshold ≤ a &&
      (match last with
       | none => true
       | some t => COOLDOWN_WINDOW < now - t)

/-- Is a notification attempted for this preference in this pass? The
query filters to subscribed users (app.py lines 750-752), then the fire
decision applies. -/
def prefAttempted (e : PassEnv) (p : Preference) : Bool :=
  e.subscribed p.line_user_id &&
    shouldNotify (e.aqiOf p.station_id) p.threshold_value
      p.last_alert_sent_at e.now

/-- The state of one preference after one pass (app.py lines 755-784): if
a notification is attempted and the transport reports success,
`last_alert_sent_at` is set to the pass instant and committed; otherwise
the row is untouched. -/
def prefStep (e : PassEnv) (p : Preference) : Preference :=
  if prefAttempted e p then
    if e.deliver p.line_user_id p.station_id then
      { p with last_alert_sent_at := some e.now }
    else p
  else p

/-- One full pass of `send_personalized_aqi_alerts_job` over the
preference table: each row is evaluated independently, in order. -/
def alertPass (e : PassEnv) (prefs : List Preference) : List Preference :=
  prefs.map (prefStep e)

/-- The preferences for which this pass attempts a delivery. -/
def attemptedPrefs (e : PassEnv) (prefs : List Preference) :
    List Preference :=
  prefs.filter (prefAttempted e)

/-- Run a sequence of alert-engine passes over one preference, returning
its final state and how many of those passes attempted a notification for
it. -/
def runPasses : List PassEnv → Preference → Preference × Nat
  | [], p => (p, 0)
  | e :: es, p =>
    let r := runPasses es (prefStep e p)
    (r.1, (if prefAttempted e p then 1 else 0) + r.2)

section Scheduler

/-- The shape of `Config.SCHEDULER_JOB_DEFAULTS` (config.py lines 38-41). -/
structure JobDefaults where
  coalesce : Bool
  max_instances : Nat
deriving DecidableEq, Repr

/-- `Config.SCHEDULER_JOB_DEFAULTS = {'coalesce': False, 'max_instances': 1}`
(config.py lines 38-41). -/
def SCHEDULER_JOB_DEFAULTS : JobDefaults :=
  { coalesce := false, max_instances := 1 }

end Scheduler

/-! ## Basic facts about the embedded operations -/

theorem setMeta_site_id (st : StationR) (n : String) (c : Option String)
    (la lo : Option ℚ) (rg : String) :
    (setMeta st n c la lo rg).site_id = st.site_id := rfl

theorem setReading_site_id (st : StationR) (a : Option Int)
    (s : Option String) (p25 p10 : Option Int) (pt : Option Nat) :
    (setReading st a s p25 p10 pt).site_id = st.site_id := rfl

theorem newStation_site_id (sid n : String) (c : Option String)
    (la lo : Option ℚ) (rg : String) :
    (newStation sid n c la lo rg).site_id = sid := rfl

/-- The site-code column of every row, in row order. -/
def siteIds (dbst : List StationR) : List String :=
  dbst.map (fun st => st.site_id)

theorem siteIds_updateFirstReading (dbst : List StationR) (sid : String)
    (a : Option Int) (s : Option String) (p25 p10 : Option Int)
    (pt : Option Nat) :
    siteIds (updateFirstReading dbst sid a s p25 p10 pt) = siteIds dbst := by
  induction dbst with
  | nil => rfl
  | cons st rest ih =>
    unfold updateFirstReading
    by_cases h : st.site_id == sid
    · simp [h, siteIds, setReading]
    · simp only [h, Bool.false_eq_true, if_false]
      simp [siteIds] at ih ⊢
      exact ih

theorem siteIds_readingAct (dbst : List StationR) (r : ReadingRecord) :
    siteIds (readingAct dbst r) = siteIds dbst := by
  unfold readingAct
  by_cases h : pyTruthy r.siteid
  · simp [h, siteIds_updateFirstReading]
  · simp [h]

/-! ## C8 — readings never create (or destroy) stations -/

/-- C8: for every starting table and every batch of reading records,
`fetch_and_store_realtime_aqi` leaves the row list's site codes — hence
the set of stations, their count and their order — exactly as before: a
reading record whose site code matches no station never creates one. -/
theorem c8_readings_preserve_station_set (dbst : List StationR)
    (records : List ReadingRecord) :
    siteIds (fetch_and_store_realtime_aqi dbst records) = siteIds dbst := by
  induction records generalizing dbst with
  | nil => rfl
  | cons r rs ih =>
    unfold fetch_and_store_realtime_aqi at ih ⊢
    simp only [List.foldl_cons]
    rw [ih, siteIds_readingAct]

/-! ## C9 — scheduler job defaults -/

/-- C9 counterexample: the claim asserts that every job is configured to
coalesce missed runs, but `Config.SCHEDULER_JOB_DEFAULTS` sets
`coalesce` to `False` (while `max_instances` is indeed 1). -/
theorem c9_counterexample :
    ¬ (SCHEDULER_JOB_DEFAULTS.coalesce = true ∧
       SCHEDULER_JOB_DEFAULTS.max_instances = 1) := by
  decide

/-- C9 (amended): the scheduler job defaults set `max_instances` to 1, so
two instances of the same job never overlap and a fire that arrives while
the job is still running is skipped rather than queued; but `coalesce` is
`False`, so missed runs are not coalesced. -/
theorem c9_job_defaults :
    SCHEDULER_JOB_DEFAULTS.max_instances = 1 ∧
      SCHEDULER_JOB_DEFAULTS.coalesce = false := by
  decide

/-! ## C1 — the fire condition of one alert-engine pass -/

/-- A concrete pass environment: every user subscribed, every station
reporting AQI 150, every delivery succeeding, evaluated at instant 3600. -/
def c1Env : PassEnv :=
  { now := 3600
    aqiOf := fun _ => some 150
    subscribed := fun _ => true
    deliver := fun _ _ => true }

/-- A concrete preference: threshold 100, last alert sent at instant 0. -/
def c1Pref : Preference :=
  { line_user_id := "u1"
    station_id := 1
    threshold_value := 100
    last_alert_sent_at := some 0 }

/-- C1 counterexample: at instant 3600 the elapsed time since the last
alert (sent at instant 0) equals `COOLDOWN_WINDOW` exactly, so `now -
lastAlertSentAt` is not less than the window; the AQI (150) is non-null
and at least the threshold (100) and the recipient is subscribed — the
claim's three conditions all hold — yet the pass attempts no
notification, because the code requires strictly more than the window to
have elapsed (`time_since_last_alert > timedelta(hours=1)`). -/
theorem c1_counterexample :
    attemptedPrefs c1Env [c1Pref] = [] ∧
    c1Env.subscribed c1Pref.line_user_id = true ∧
    c1Env.aqiOf c1Pref.station_id = some 150 ∧
    c1Pref.threshold_value ≤ 150 ∧
    c1Pref.last_alert_sent_at = some 0 ∧
    COOLDOWN_WINDOW ≤ c1Env.now - 0 := by
  decide

/-- C1 (amended): for every preference of a subscribed recipient evaluated
in an alert-engine pass, a notification is attempted exactly when the
station's current AQI is non-null, at least the preference's threshold,
and either no alert was ever sent or strictly more than `COOLDOWN_WINDOW`
has elapsed since the last one; when any of these fails the preference is
skipped, leaving its row unchanged. -/
theorem c1_alert_fire_condition (e : PassEnv) (p : Preference)
    (prefs : List Preference)
    (hsub : e.subscribed p.line_user_id = true) :
    (prefAttempted e p = true ↔
      ∃ a, e.aqiOf p.station_id = some a ∧ p.threshold_value ≤ a ∧
        (p.last_alert_sent_at = none ∨
          ∃ t, p.last_alert_sent_at = some t ∧
            COOLDOWN_WINDOW < e.now - t)) ∧
    (prefAttempted e p = false → prefStep e p = p) ∧
    (p ∈ attemptedPrefs e prefs ↔ p ∈ prefs ∧ prefAttempted e p = true) := by
  refine ⟨?_, ?_, ?_⟩
  · unfold prefAttempted shouldNotify
    rw [hsub]
    cases haqi : e.aqiOf p.station_id with
    | none => simp
    | some a =>
      cases hlast : p.last_alert_sent_at with
      | none => simp [decide_eq_true_eq]
      | some t => simp [decide_eq_true_eq]
  · intro hatt
    unfold prefStep
    rw [hatt]
    simp
  · unfold attemptedPrefs
    exact List.mem_filter

/-- Witness for `c1_alert_fire_condition` at a concrete input: with the
environment `c1Env` and a never-alerted variant of `c1Pref`, membership in
the attempted list coincides with the fire decision. -/
theorem c1_alert_fire_condition_witness :
    { c1Pref with last_alert_sent_at := none } ∈
        attemptedPrefs c1Env [{ c1Pref with last_alert_sent_at := none }] ↔
      { c1Pref with last_alert_sent_at := none } ∈
          [{ c1Pref with last_alert_sent_at := none }] ∧
        prefAttempted c1Env { c1Pref with last_alert_sent_at := none } = true :=
  (c1_alert_fire_condition c1Env { c1Pref with last_alert_sent_at := none }
    [{ c1Pref with last_alert_sent_at := none }] rfl).2.2

/-! ## C6 — defensive numeric parsing in the readings pipeline -/

theorem lookupSt_updateFirstReading_self (dbst : List StationR)
    (sid : String) (a : Option Int) (s : Option String)
    (p25 p10 : Option Int) (pt : Option Nat) :
    lookupSt (updateFirstReading dbst sid a s p25 p10 pt) sid =
      (lookupSt dbst sid).map (fun st => setReading st a s p25 p10 pt) := by
  induction dbst with
  | nil => rfl
  | cons st rest ih =>
    unfold updateFirstReading lookupSt
    cases h : st.site_id == sid with
    | true =>
      simp only [if_true, List.find?]
      rw [setReading_site_id, h]
      simp [lookupSt, List.find?, h]
    | false =>
      simp only [Bool.false_eq_true, if_false, List.find?]
      rw [h]
      simp only [lookupSt] at ih
      exact ih

/-- A string is falsy exactly when it is empty. -/
theorem pyTruthy_some (s : String) : pyTruthy (some s) = !s.isEmpty := rfl

/-- C6: a reading record whose `aqi` field is an empty string, or any
content `int()` rejects, stores a null `aqi` for the matching station (the
other four reading columns are still replaced as usual), raises nothing —
`safe_int_conversion` is total — and the remaining records of the batch
are still processed from the updated table. -/
theorem c6_bad_aqi_stored_as_null (dbst : List StationR) (st : StationR)
    (r : ReadingRecord) (rs : List ReadingRecord) (sid a : String)
    (hsid : r.siteid = some sid) (hne : sid ≠ "")
    (hfound : lookupSt dbst sid = some st)
    (haqi : r.aqi = some a) (hbad : pythonInt a = none) :
    lookupSt (readingAct dbst r) sid =
      some (setReading st none r.status (safe_int_conversion r.pm25)
        (safe_int_conversion r.pm10) (parsePublishTime r.publishtime)) ∧
    fetch_and_store_realtime_aqi dbst (r :: rs) =
      fetch_and_store_realtime_aqi (readingAct dbst r) rs := by
  constructor
  · have htr : pyTruthy r.siteid = true := by
      rw [hsid, pyTruthy_some]
      have hemp : sid.isEmpty = false := by
        cases hs : sid.isEmpty with
        | true => exact absurd ((String.isEmpty_iff sid).mp hs) hne
        | false => rfl
      rw [hemp]
      rfl
    have hval : strVal r.siteid = sid := by rw [hsid]; rfl
    have hnull : safe_int_conversion r.aqi = none := by
      rw [haqi]
      unfold safe_int_conversion
      by_cases he : a.isEmpty <;> simp [he, hbad]
    unfold readingAct
    rw [htr, if_pos rfl, hval, hnull, lookupSt_updateFirstReading_self,
      hfound]
    rfl
  · rfl

/-- A concrete station row with a previous reading, for the C6 witness. -/
def c6St : StationR :=
  setReading (newStation "S1" "N" none none none "北")
    (some 87) (some "普通") (some 20) (some 40) (some 0)

/-- A concrete reading record whose `aqi` field is the empty string. -/
def c6Rec : ReadingRecord :=
  { siteid := some "S1", aqi := some "", status := some "良好",
    pm25 := some "10", pm10 := some "30", publishtime := none }

/-- Witness for `c6_bad_aqi_stored_as_null`: a station with a previous
reading, hit by a record with `aqi = ""`, ends up with a null `aqi`. -/
theorem c6_bad_aqi_stored_as_null_witness :
    lookupSt (readingAct [c6St] c6Rec) "S1" =
      some (setReading c6St none c6Rec.status
        (safe_int_conversion c6Rec.pm25) (safe_int_conversion c6Rec.pm10)
        (parsePublishTime c6Rec.publishtime)) ∧
    fetch_and_store_realtime_aqi [c6St] (c6Rec :: []) =
      fetch_and_store_realtime_aqi (readingAct [c6St] c6Rec) [] :=
  c6_bad_aqi_stored_as_null [c6St] c6St c6Rec [] "S1" ""
    rfl (by decide) (by decide) rfl (by decide)

/-! ## C7 — delivery failure leaves cooldown state untouched -/

/-- C7: in any alert-engine pass, if the transport reports failure for a
preference (`send_line_message` returns `False`, having caught any
transport exception), that preference's row — in particular its
`last_alert_sent_at` — is unchanged and the rest of the batch is still
evaluated; and when a notification is attempted and the transport reports
success, `last_alert_sent_at` is set to the pass instant, again with the
rest of the batch still evaluated. -/
theorem c7_delivery_failure_keeps_cooldown (e : PassEnv) (p : Preference)
    (rest : List Preference) :
    (e.deliver p.line_user_id p.station_id = false →
      alertPass e (p :: rest) = p :: alertPass e rest) ∧
    (prefAttempted e p = true →
      e.deliver p.line_user_id p.station_id = true →
      alertPass e (p :: rest) =
        { p with last_alert_sent_at := some e.now } :: alertPass e rest) := by
  constructor
  · intro hfail
    unfold alertPass
    simp only [List.map_cons]
    unfold prefStep
    rw [hfail]
    cases prefAttempted e p <;> simp
  · intro hatt hok
    unfold alertPass
    simp only [List.map_cons]
    unfold prefStep
    rw [hatt, hok]
    simp

/-- A pass environment whose transport always fails. -/
def c7EnvFail : PassEnv :=
  { now := 7200
    aqiOf := fun _ => some 150
    subscribed := fun _ => true
    deliver := fun _ _ => false }

/-- A pass environment whose transport always succeeds. -/
def c7EnvOk : PassEnv :=
  { now := 7200
    aqiOf := fun _ => some 150
    subscribed := fun _ => true
    deliver := fun _ _ => true }

/-- A never-alerted preference evaluated in the C7 witness passes. -/
def c7Pref : Preference :=
  { line_user_id := "u7"
    station_id := 2
    threshold_value := 100
    last_alert_sent_at := none }

/-- Witness for `c7_delivery_failure_keeps_cooldown`: under a failing
transport the preference row survives the pass unchanged, under a
succeeding one its `last_alert_sent_at` becomes the pass instant; in both
cases the rest of the batch is still processed. -/
theorem c7_delivery_failure_keeps_cooldown_witness :
    alertPass c7EnvFail (c7Pref :: [c7Pref]) =
      c7Pref :: alertPass c7EnvFail [c7Pref] ∧
    alertPass c7EnvOk (c7Pref :: [c7Pref]) =
      { c7Pref with last_alert_sent_at := some 7200 } ::
        alertPass c7EnvOk [c7Pref] :=
  ⟨(c7_delivery_failure_keeps_cooldown c7EnvFail c7Pref [c7Pref]).1 rfl,
   (c7_delivery_failure_keeps_cooldown c7EnvOk c7Pref [c7Pref]).2
     (by decide) rfl⟩

/-! ## C2 — cooldown monotonicity across passes -/

/-- C2: a preference whose `last_alert_sent_at` is `T` receives no further
notification attempt in any sequence of alert-engine passes all evaluated
strictly before `T + COOLDOWN_WINDOW` — however many passes run, and even
with the AQI at or above the threshold throughout (hypothesis `haqi`, not
actually needed for the skip) — and its row, in particular
`last_alert_sent_at = T`, is unchanged at the end. -/
theorem c2_cooldown_monotonic (p : Preference) (T : Int)
    (envs : List PassEnv)
    (hlast : p.last_alert_sent_at = some T)
    (htimes : ∀ e ∈ envs, e.now < T + COOLDOWN_WINDOW)
    (haqi : ∀ e ∈ envs, ∀ a, e.aqiOf p.station_id = some a →
      p.threshold_value ≤ a) :
    (runPasses envs p).2 = 0 ∧ (runPasses envs p).1 = p := by
  induction envs with
  | nil => exact ⟨rfl, rfl⟩
  | cons e es ih =>
    have hnow : e.now < T + COOLDOWN_WINDOW := htimes e (by simp)
    have hnotf : prefAttempted e p = false := by
      unfold prefAttempted shouldNotify
      cases haq : e.aqiOf p.station_id with
      | none => simp
      | some a =>
        rw [hlast]
        have hlt : ¬ COOLDOWN_WINDOW < e.now - T := by omega
        simp [hlt]
    have hstep : prefStep e p = p := by
      unfold prefStep
      rw [hnotf]
      simp
    have ihh := ih (fun e2 he2 => htimes e2 (by simp [he2]))
      (fun e2 he2 => haqi e2 (by simp [he2]))
    unfold runPasses
    rw [hstep, hnotf]
    simpa using ihh

/-- A pass environment evaluated ten minutes after the last alert. -/
def c2Env : PassEnv :=
  { now := 600
    aqiOf := fun _ => some 150
    subscribed := fun _ => true
    deliver := fun _ _ => true }

/-- A preference last alerted at instant 0, for the C2 witness. -/
def c2Pref : Preference :=
  { line_user_id := "u2"
    station_id := 3
    threshold_value := 100
    last_alert_sent_at := some 0 }

/-- Witness for `c2_cooldown_monotonic`: three passes at 10 minutes, 20
minutes and 59 minutes after an alert at instant 0 attempt nothing and
leave the preference unchanged, although the AQI (150) stays above the
threshold (100). -/
theorem c2_cooldown_monotonic_witness :
    (runPasses [c2Env, { c2Env with now := 1200 },
      { c2Env with now := 3540 }] c2Pref).2 = 0 ∧
    (runPasses [c2Env, { c2Env with now := 1200 },
      { c2Env with now := 3540 }] c2Pref).1 = c2Pref :=
  c2_cooldown_monotonic c2Pref 0
    [c2Env, { c2Env with now := 1200 }, { c2Env with now := 3540 }]
    rfl
    (by intro e he; fin_cases he <;> decide)
    (by intro e he a ha; fin_cases he <;> simp [c2Env] at ha <;>
      simp [c2Pref] <;> omega)

/-! ## C5 — nearest-station selection -/

theorem nearestStation_append_singleton (d : ℚ → ℚ → ℚ → ℚ → ℚ)
    (ulat ulon : ℚ) (l : List StationR) (x : StationR) :
    nearestStation d ulat ulon (l ++ [x]) =
      nearestStep d ulat ulon (nearestStation d ulat ulon l) x := by
  unfold nearestStation
  rw [List.foldl_append]
  rfl

theorem nearestStation_none_of_no_coords (d : ℚ → ℚ → ℚ → ℚ → ℚ)
    (ulat ulon : ℚ) (stations : List StationR)
    (h : ∀ st ∈ stations, hasCoords st = false) :
    nearestStation d ulat ulon stations = none := by
  induction stations with
  | nil => rfl
  | cons st rest ih =>
    unfold nearestStation at ih ⊢
    simp only [List.foldl_cons]
    have hst : hasCoords st = false := h st (by simp)
    have hstep : nearestStep d ulat ulon none st = none := by
      unfold nearestStep
      rw [hst]
      simp
    rw [hstep]
    exact ih (fun st2 h2 => h st2 (by simp [h2]))


theorem nearestStation_charact (d : ℚ → ℚ → ℚ → ℚ → ℚ)
    (ulat ulon : ℚ) (stations : List StationR) :
    (nearestStation d ulat ulon stations = none →
      ∀ st ∈ stations, hasCoords st = false) ∧
    (∀ b dist, nearestStation d ulat ulon stations = some (b, dist) →
      hasCoords b = true ∧ dist = distTo d ulat ulon b ∧
      (∀ st ∈ stations, hasCoords st = true →
        dist ≤ distTo d ulat ulon st) ∧
      ∃ l1 l2, stations = l1 ++ b :: l2 ∧
        ∀ st ∈ l1, hasCoords st = true → dist < distTo d ulat ulon st) := by
  induction stations using List.reverseRecOn with
  | nil =>
    constructor
    · intro _ st hst
      exact absurd hst (List.not_mem_nil st)
    · intro b dist h
      exact absurd h (by unfold nearestStation; simp)
  | append_singleton l x ih =>
    rw [nearestStation_append_singleton]
    cases hc : hasCoords x with
    | false =>
      have hstep : nearestStep d ulat ulon
          (nearestStation d ulat ulon l) x =
          nearestStation d ulat ulon l := by
        unfold nearestStep
        rw [hc]
        simp
      rw [hstep]
      constructor
      · intro hnone st hst
        rcases List.mem_append.mp hst with h1 | h1
        · exact ih.1 hnone st h1
        · rw [List.mem_singleton.mp h1]
          exact hc
      · intro b dist hsome
        obtain ⟨hb, hd, hmin, l1, l2, hdec, hstrict⟩ := ih.2 b dist hsome
        refine ⟨hb, hd, ?_, l1, l2 ++ [x], ?_, hstrict⟩
        · intro st hst hco
          rcases List.mem_append.mp hst with h1 | h1
          · exact hmin st h1 hco
          · rw [List.mem_singleton.mp h1] at hco
            rw [hco] at hc
            cases hc
        · rw [hdec]
          simp
    | true =>
      cases hacc : nearestStation d ulat ulon l with
      | none =>
        have hstep : nearestStep d ulat ulon
            (none : Option (StationR × ℚ)) x =
            some (x, distTo d ulat ulon x) := by
          unfold nearestStep
          rw [hc]
          simp
        rw [hstep]
        constructor
        · intro h
          cases h
        · intro b dist hsome
          have h2 := Option.some.inj hsome
          rw [Prod.mk.injEq] at h2
          obtain ⟨hb1, hd1⟩ := h2
          subst hb1
          refine ⟨hc, hd1.symm, ?_, l, [], rfl, ?_⟩
          · intro st hst hco
            rcases List.mem_append.mp hst with h1 | h1
            · rw [ih.1 hacc st h1] at hco
              cases hco
            · rw [List.mem_singleton.mp h1, ← hd1]
          · intro st hst hco
            rw [ih.1 hacc st hst] at hco
            cases hco
      | some best =>
        obtain ⟨b0, dist0⟩ := best
        obtain ⟨hb0, hd0, hmin0, l1, l2, hdec0, hstrict0⟩ :=
          ih.2 b0 dist0 hacc
        have hstep : nearestStep d ulat ulon (some (b0, dist0)) x =
            if distTo d ulat ulon x < dist0 then
              some (x, distTo d ulat ulon x)
            else some (b0, dist0) := by
          unfold nearestStep
          rw [hc]
          simp
        rw [hstep]
        cases hcmp : decide (distTo d ulat ulon x < dist0) with
        | true =>
          have hlt : distTo d ulat ulon x < dist0 := of_decide_eq_true hcmp
          rw [if_pos hlt]
          constructor
          · intro h
            cases h
          · intro b dist hsome
            have h2 := Option.some.inj hsome
            rw [Prod.mk.injEq] at h2
            obtain ⟨hb1, hd1⟩ := h2
            subst hb1
            refine ⟨hc, hd1.symm, ?_, l, [], rfl, ?_⟩
            · intro st hst hco
              rcases List.mem_append.mp hst with h1 | h1
              · have hm := hmin0 st h1 hco
                rw [← hd1]
                linarith
              · rw [List.mem_singleton.mp h1, ← hd1]
            · intro st hst hco
              have hm := hmin0 st hst hco
              rw [← hd1]
              linarith
        | false =>
          have hge : ¬ distTo d ulat ulon x < dist0 :=
            of_decide_eq_false hcmp
          rw [if_neg hge]
          constructor
          · intro h
            cases h
          · intro b dist hsome
            have h2 := Option.some.inj hsome
            rw [Prod.mk.injEq] at h2
            obtain ⟨hb1, hd1⟩ := h2
            subst hb1
            subst hd1
            refine ⟨hb0, hd0, ?_, l1, l2 ++ [x], ?_, hstrict0⟩
            · intro st hst hco
              rcases List.mem_append.mp hst with h1 | h1
              · exact hmin0 st h1 hco
              · rw [List.mem_singleton.mp h1]
                exact le_of_not_lt hge
            · rw [hdec0]
              simp

/-- A concrete station 1 km from the query point (coordinates (1, 1)). -/
def c5StA : StationR := newStation "A" "NearSt" none (some 1) (some 1) "北"

/-- A concrete station 5 km from the query point (coordinates (2, 2)). -/
def c5StB : StationR := newStation "B" "MidSt" none (some 2) (some 2) "北"

/-- A concrete station 10 km from the query point (coordinates (3, 3)). -/
def c5StC : StationR := newStation "C" "FarSt" none (some 3) (some 3) "北"

/-- The 1 km station with its latitude nulled out. -/
def c5StA0 : StationR := newStation "A" "NearSt" none none (some 1) "北"

/-- A concrete distance function placing the three C5 stations at 1 km,
5 km and 10 km from the query point. -/
def c5Dist : ℚ → ℚ → ℚ → ℚ → ℚ := fun _ _ la _ =>
  if la = 1 then 1 else if la = 2 then 5 else 10

/-- C5: the nearest-station computation (for every distance function, in
particular the haversine kilometer distance computed by
`calculate_distance`) excludes candidates with a null coordinate, returns
`none` exactly when no candidate has coordinates, and otherwise returns a
coordinate-bearing candidate together with its own distance, minimal among
all coordinate-bearing candidates, and positioned so that every earlier
coordinate-bearing candidate is strictly farther — the first minimum wins.
Concretely: with stations at 1 km, 5 km and 10 km it returns the 1 km
station at distance 1, and when the 1 km station's latitude is null it
returns the 5 km station at distance 5. -/
theorem c5_nearest_station (d : ℚ → ℚ → ℚ → ℚ → ℚ) (ulat ulon : ℚ)
    (stations : List StationR) :
    (nearestStation d ulat ulon stations = none ↔
      ∀ st ∈ stations, hasCoords st = false) ∧
    (∀ b dist, nearestStation d ulat ulon stations = some (b, dist) →
      hasCoords b = true ∧ dist = distTo d ulat ulon b ∧
      (∀ st ∈ stations, hasCoords st = true →
        dist ≤ distTo d ulat ulon st) ∧
      ∃ l1 l2, stations = l1 ++ b :: l2 ∧
        ∀ st ∈ l1, hasCoords st = true → dist < distTo d ulat ulon st) ∧
    (nearestStation c5Dist 0 0 [c5StA, c5StB, c5StC] = some (c5StA, 1) ∧
      nearestStation c5Dist 0 0 [c5StA0, c5StB, c5StC] = some (c5StB, 5)) :=
  ⟨⟨(nearestStation_charact d ulat ulon stations).1,
    nearestStation_none_of_no_coords d ulat ulon stations⟩,
   (nearestStation_charact d ulat ulon stations).2,
   by decide, by decide⟩

/-- Witness for `c5_nearest_station` at a concrete input: an empty
candidate list yields no nearest station. -/
theorem c5_nearest_station_witness :
    nearestStation c5Dist 0 0 [] = none :=
  (c5_nearest_station c5Dist 0 0 []).1.mpr (by simp)

/-! ## C10 — the readings pipeline only touches reading columns -/

/-- The identity and metadata columns are equal (old on the left, the row
after the call on the right). -/
def metaUnchanged (old new : StationR) : Prop :=
  new.site_id = old.site_id ∧ new.name = old.name ∧
  new.county = old.county ∧ new.latitude = old.latitude ∧
  new.longitude = old.longitude ∧ new.region = old.region

/-- The site code a reading record addresses, if any: falsy site codes
never reach the station query. -/
def recSid (r : ReadingRecord) : Option String :=
  if pyTruthy r.siteid then some (strVal r.siteid) else none

/-- All site codes addressed by a batch of reading records. -/
def touchedSids (records : List ReadingRecord) : List String :=
  records.filterMap recSid

theorem metaUnchanged_refl (st : StationR) : metaUnchanged st st :=
  ⟨rfl, rfl, rfl, rfl, rfl, rfl⟩

theorem metaUnchanged_trans (a b c : StationR)
    (h1 : metaUnchanged a b) (h2 : metaUnchanged b c) : metaUnchanged a c := by
  obtain ⟨e1, e2, e3, e4, e5, e6⟩ := h1
  obtain ⟨f1, f2, f3, f4, f5, f6⟩ := h2
  exact ⟨f1.trans e1, f2.trans e2, f3.trans e3, f4.trans e4,
    f5.trans e5, f6.trans e6⟩

theorem forall₂_compose {α : Type} {R S T : α → α → Prop}
    (h : ∀ a b c, R a b → S b c → T a c) :
    ∀ {l1 l2 l3 : List α}, List.Forall₂ R l1 l2 → List.Forall₂ S l2 l3 →
      List.Forall₂ T l1 l3 := by
  intro l1 l2 l3 h12 h23
  induction h12 generalizing l3 with
  | nil =>
    cases h23
    exact List.Forall₂.nil
  | cons hab htail ih =>
    cases h23 with
    | cons hbc htail2 =>
      exact List.Forall₂.cons (h _ _ _ hab hbc) (ih htail2)

theorem updateFirstReading_frame (dbst : List StationR) (sid : String)
    (a : Option Int) (s : Option String) (p25 p10 : Option Int)
    (pt : Option Nat) :
    List.Forall₂ (fun old new => metaUnchanged old new ∧
      (sid ≠ old.site_id → new = old))
      dbst (updateFirstReading dbst sid a s p25 p10 pt) := by
  induction dbst with
  | nil => exact List.Forall₂.nil
  | cons st rest ih =>
    unfold updateFirstReading
    cases h : st.site_id == sid with
    | true =>
      simp only [if_true]
      refine List.Forall₂.cons ⟨⟨rfl, rfl, rfl, rfl, rfl, rfl⟩, ?_⟩ ?_
      · intro hne
        exact absurd (beq_iff_eq.mp h).symm hne
      · exact List.forall₂_same.mpr
          (fun x _ => ⟨metaUnchanged_refl x, fun _ => rfl⟩)
    | false =>
      simp only [Bool.false_eq_true, if_false]
      exact List.Forall₂.cons ⟨metaUnchanged_refl st, fun _ => rfl⟩ ih

theorem readingAct_frame (dbst : List StationR) (r : ReadingRecord) :
    List.Forall₂ (fun old new => metaUnchanged old new ∧
      (recSid r ≠ some old.site_id → new = old))
      dbst (readingAct dbst r) := by
  unfold readingAct recSid
  cases h : pyTruthy r.siteid with
  | true =>
    simp only [if_true]
    refine (updateFirstReading_frame dbst (strVal r.siteid)
      (safe_int_conversion r.aqi) r.status (safe_int_conversion r.pm25)
      (safe_int_conversion r.pm10)
      (parsePublishTime r.publishtime)).imp ?_
    intro old new hp
    refine ⟨hp.1, fun hne => hp.2 ?_⟩
    intro heq
    exact hne (by rw [heq])
  | false =>
    simp only [Bool.false_eq_true, if_false]
    exact List.forall₂_same.mpr
      (fun x _ => ⟨metaUnchanged_refl x, fun _ => rfl⟩)

theorem touchedSids_cons (r : ReadingRecord) (rs : List ReadingRecord)
    (sid : String) (h : sid ∉ touchedSids (r :: rs)) :
    recSid r ≠ some sid ∧ sid ∉ touchedSids rs := by
  unfold touchedSids at h ⊢
  rw [List.filterMap_cons] at h
  cases hr : recSid r with
  | none =>
    simp only [hr] at h
    exact ⟨fun hcontra => Option.noConfusion hcontra, h⟩
  | some s =>
    simp only [hr, List.mem_cons, not_or] at h
    refine ⟨?_, h.2⟩
    intro hss
    exact h.1 (Option.some.inj hss).symm

/-- C10: `fetch_and_store_realtime_aqi` relates old and new tables row by
row (same length, in `List.Forall₂`): every row keeps its identity and
metadata columns (`site_id`, `name`, `county`, `latitude`, `longitude`,
`region`) — only the five reading columns can change — and a row whose
site code is addressed by no record of the batch is entirely unchanged. -/
theorem c10_readings_touch_only_reading_columns (dbst : List StationR)
    (records : List ReadingRecord) :
    (fetch_and_store_realtime_aqi dbst records).length = dbst.length ∧
    List.Forall₂ (fun old new => metaUnchanged old new ∧
      (old.site_id ∉ touchedSids records → new = old))
      dbst (fetch_and_store_realtime_aqi dbst records) := by
  have main : ∀ (records : List ReadingRecord) (dbst : List StationR),
      List.Forall₂ (fun old new => metaUnchanged old new ∧
        (old.site_id ∉ touchedSids records → new = old))
        dbst (fetch_and_store_realtime_aqi dbst records) := by
    intro records
    induction records with
    | nil =>
      intro dbst
      exact List.forall₂_same.mpr
        (fun x _ => ⟨metaUnchanged_refl x, fun _ => rfl⟩)
    | cons r rs ih =>
      intro dbst
      have hstep := readingAct_frame dbst r
      have htail := ih (readingAct dbst r)
      refine forall₂_compose ?_ hstep htail
      intro a b c hab hbc
      refine ⟨metaUnchanged_trans a b c hab.1 hbc.1, ?_⟩
      intro hnot
      obtain ⟨hr, hrs⟩ := touchedSids_cons r rs a.site_id hnot
      have hba : b = a := hab.2 hr
      have hcb : c = b := by
        refine hbc.2 ?_
        rw [hba]
        exact hrs
      rw [hcb, hba]
  refine ⟨?_, main records dbst⟩
  exact (List.Forall₂.length_eq (main records dbst)).symm

/-- Witness for `c10_readings_touch_only_reading_columns` at a concrete
input: one matched and one unmatched station, one reading record. -/
theorem c10_readings_touch_only_reading_columns_witness :
    (fetch_and_store_realtime_aqi [c6St, c5StB] [c6Rec]).length =
      [c6St, c5StB].length ∧
    List.Forall₂ (fun old new => metaUnchanged old new ∧
      (old.site_id ∉ touchedSids [c6Rec] → new = old))
      [c6St, c5StB] (fetch_and_store_realtime_aqi [c6St, c5StB] [c6Rec]) :=
  c10_readings_touch_only_reading_columns [c6St, c5StB] [c6Rec]

/-! ## C3 — malformed metadata records -/

/-- A well-formed metadata record for the C3 and C4 developments. -/
def c3GoodRec : StationRecord :=
  { sitename := some "StationA", siteid := some "S1",
    county := some "臺北市", twd97lat := some "25.03",
    twd97lon := some "121.5" }

/-- A metadata record whose latitude string is non-numeric: `float` raises
on it. -/
def c3BadRec : StationRecord :=
  { sitename := some "StationB", siteid := some "S2",
    county := some "臺中市", twd97lat := some "abc",
    twd97lon := some "120.6" }

/-- A metadata record with an empty station name: skipped by the
`if site_id and station_name` guard. -/
def c3NoNameRec : StationRecord :=
  { sitename := some "", siteid := some "S3", county := none,
    twd97lat := some "23.0", twd97lon := some "120.0" }

/-- C3 counterexample: a batch holding a well-formed record followed by a
record whose latitude is the non-numeric string "abc" commits nothing —
the `ValueError` from `float` escapes the loop and the whole session is
rolled back — although the well-formed record alone would have created its
station. The claim that the remaining well-formed records of the batch are
still committed is therefore false. -/
theorem c3_counterexample :
    hasSite (fetch_and_store_all_stations [] [c3GoodRec, c3BadRec]) "S1"
      = false ∧
    hasSite (fetch_and_store_all_stations [] [c3GoodRec]) "S1" = true ∧
    pythonFloat "abc" = none := by
  decide

/-- C3 (amended): a metadata record missing a site code or name (absent or
empty) is skipped — the rest of the batch is processed from the unchanged
state and committed — though no skip counter is kept; but a record whose
latitude or longitude is a truthy non-numeric string raises, and the
resulting rollback discards the entire batch, wherever in the batch that
record sits. -/
theorem c3_malformed_record_handling (dbst : List StationR)
    (r : StationRecord) (rs pre : List StationRecord) :
    ((pyTruthy r.siteid && pyTruthy r.sitename) = false →
      (parseCoord r.twd97lat).isSome → (parseCoord r.twd97lon).isSome →
      processStationRecords dbst (r :: rs) =
        processStationRecords dbst rs) ∧
    (parseCoord r.twd97lat = none ∨ parseCoord r.twd97lon = none →
      fetch_and_store_all_stations dbst (pre ++ r :: rs) = dbst) := by
  constructor
  · intro hskip hlat hlon
    obtain ⟨la, hla⟩ := Option.isSome_iff_exists.mp hlat
    obtain ⟨lo, hlo⟩ := Option.isSome_iff_exists.mp hlon
    have hact : stationAct dbst r = dbst := by
      unfold stationAct
      rw [hskip]
      simp
    conv_lhs => rw [processStationRecords]
    simp only [hla, hlo, hact]
  · intro hbad
    have habort : ∀ (dbst2 : List StationR),
        processStationRecords dbst2 (r :: rs) = none := by
      intro dbst2
      unfold processStationRecords
      rcases hbad with hb | hb
      · rw [hb]
      · rw [hb]
        cases parseCoord r.twd97lat <;> rfl
    have hnone : ∀ (pre2 : List StationRecord) (dbst2 : List StationR),
        processStationRecords dbst2 (pre2 ++ r :: rs) = none := by
      intro pre2
      induction pre2 with
      | nil =>
        intro dbst2
        exact habort dbst2
      | cons p ps ih =>
        intro dbst2
        rw [List.cons_append]
        unfold processStationRecords
        cases hpla : parseCoord p.twd97lat with
        | none => rfl
        | some la =>
          cases hplo : parseCoord p.twd97lon with
          | none => rfl
          | some lo => exact ih (stationAct dbst2 p)
    unfold fetch_and_store_all_stations
    rw [hnone pre dbst]
    rfl

/-- Witness for `c3_malformed_record_handling`: the no-name record is
skipped with the rest of the batch proceeding, and a batch with a good
record before the bad-latitude record commits nothing. -/
theorem c3_malformed_record_handling_witness :
    processStationRecords [] (c3NoNameRec :: [c3GoodRec]) =
      processStationRecords [] [c3GoodRec] ∧
    fetch_and_store_all_stations [] ([c3GoodRec] ++ c3BadRec :: []) = [] :=
  ⟨(c3_malformed_record_handling [] c3NoNameRec [c3GoodRec] []).1
      (by decide) (by decide) (by decide),
   (c3_malformed_record_handling [] c3BadRec [] [c3GoodRec]).2
      (Or.inl (by decide))⟩

/-! ## C4 — idempotence of the station-metadata refresh -/

/-- Does the record pass the `if site_id and station_name` guard? -/
def effRec (r : StationRecord) : Bool :=
  pyTruthy r.siteid && pyTruthy r.sitename

/-- Do both coordinate strings of the record survive `float` parsing? -/
def goodRecord (r : StationRecord) : Bool :=
  (parseCoord r.twd97lat).isSome && (parseCoord r.twd97lon).isSome

/-- Does the record upsert the row with site code `sid`? -/
def keyedAs (r : StationRecord) (sid : String) : Bool :=
  effRec r && (strVal r.siteid == sid)

/-- The row a metadata record leaves at its site code, given the row that
was there before: an update of the existing row or a fresh insert. -/
def metaOf (r : StationRecord) (o : Option StationR) : StationR :=
  match o with
  | some st => setMeta st (strVal r.sitename) r.county
      ((parseCoord r.twd97lat).getD none) ((parseCoord r.twd97lon).getD none)
      (regionOf r.county)
  | none => newStation (strVal r.siteid) (strVal r.sitename) r.county
      ((parseCoord r.twd97lat).getD none) ((parseCoord r.twd97lon).getD none)
      (regionOf r.county)

/-- The last record of the batch that upserts the row with site code
`sid`, if any (its field values win). -/
def lastMeta (rs : List StationRecord) (sid : String) : Option StationRecord :=
  rs.foldl (fun acc r => if keyedAs r sid then some r else acc) none

theorem processStationRecords_eq (dbst : List StationR)
    (rs : List StationRecord) :
    processStationRecords dbst rs =
      if rs.all goodRecord then some (rs.foldl stationAct dbst) else none := by
  induction rs generalizing dbst with
  | nil => simp [processStationRecords]
  | cons r rs ih =>
    conv_lhs => rw [processStationRecords]
    cases hla : parseCoord r.twd97lat with
    | none =>
      have hg : goodRecord r = false := by
        unfold goodRecord
        rw [hla]
        rfl
      simp [List.all_cons, hg]
    | some la =>
      cases hlo : parseCoord r.twd97lon with
      | none =>
        have hg : goodRecord r = false := by
          unfold goodRecord
          rw [hlo]
          simp
        simp [List.all_cons, hg]
      | some lo =>
        have hg : goodRecord r = true := by
          unfold goodRecord
          rw [hla, hlo]
          rfl
        simp only [ih, List.all_cons, hg, Bool.true_and, List.foldl_cons]

theorem hasSite_eq_isSome (dbst : List StationR) (sid : String) :
    hasSite dbst sid = (lookupSt dbst sid).isSome := by
  induction dbst with
  | nil => rfl
  | cons st rest ih =>
    unfold hasSite lookupSt
    rw [List.any_cons, List.find?]
    cases h : st.site_id == sid with
    | true => rfl
    | false =>
      rw [Bool.false_or]
      exact ih

theorem lookupSt_append (l1 l2 : List StationR) (sid : String) :
    lookupSt (l1 ++ l2) sid =
      match lookupSt l1 sid with
      | some st => some st
      | none => lookupSt l2 sid := by
  induction l1 with
  | nil => rfl
  | cons st rest ih =>
    rw [List.cons_append]
    unfold lookupSt
    rw [List.find?, List.find?]
    cases h : st.site_id == sid with
    | true => rfl
    | false => exact ih

theorem lookupSt_updateFirstMeta_self (dbst : List StationR)
    (sid n : String) (c : Option String) (la lo : Option ℚ) (rg : String) :
    lookupSt (updateFirstMeta dbst sid n c la lo rg) sid =
      (lookupSt dbst sid).map (fun st => setMeta st n c la lo rg) := by
  induction dbst with
  | nil => rfl
  | cons st rest ih =>
    unfold updateFirstMeta lookupSt
    cases h : st.site_id == sid with
    | true =>
      simp only [if_true, List.find?]
      rw [setMeta_site_id, h]
      simp [lookupSt, List.find?, h]
    | false =>
      simp only [Bool.false_eq_true, if_false, List.find?]
      rw [h]
      simp only [lookupSt] at ih
      exact ih

theorem lookupSt_updateFirstMeta_other (dbst : List StationR)
    (sid n : String) (c : Option String) (la lo : Option ℚ) (rg : String)
    (sid2 : String) (hne : sid2 ≠ sid) :
    lookupSt (updateFirstMeta dbst sid n c la lo rg) sid2 =
      lookupSt dbst sid2 := by
  induction dbst with
  | nil => rfl
  | cons st rest ih =>
    unfold updateFirstMeta lookupSt
    cases h : st.site_id == sid with
    | true =>
      simp only [if_true, List.find?]
      rw [setMeta_site_id]
      cases h2 : st.site_id == sid2 with
      | true =>
        exact absurd ((beq_iff_eq.mp h2).symm.trans (beq_iff_eq.mp h))
          hne
      | false => rfl
    | false =>
      simp only [Bool.false_eq_true, if_false, List.find?]
      cases h2 : st.site_id == sid2 with
      | true => rfl
      | false =>
        simp only [lookupSt] at ih
        exact ih

theorem length_updateFirstMeta (dbst : List StationR) (sid n : String)
    (c : Option String) (la lo : Option ℚ) (rg : String) :
    (updateFirstMeta dbst sid n c la lo rg).length = dbst.length := by
  induction dbst with
  | nil => rfl
  | cons st rest ih =>
    unfold updateFirstMeta
    cases h : st.site_id == sid with
    | true => simp
    | false =>
      simp only [Bool.false_eq_true, if_false, List.length_cons]
      rw [ih]

theorem lookupSt_upsert_self (dbst : List StationR) (sid n : String)
    (c : Option String) (la lo : Option ℚ) (rg : String) :
    lookupSt (upsertStation dbst sid n c la lo rg) sid =
      some (match lookupSt dbst sid with
        | some st => setMeta st n c la lo rg
        | none => newStation sid n c la lo rg) := by
  unfold upsertStation
  cases hh : hasSite dbst sid with
  | true =>
    simp only [if_true]
    rw [lookupSt_updateFirstMeta_self]
    rw [hasSite_eq_isSome] at hh
    obtain ⟨st, hst⟩ := Option.isSome_iff_exists.mp hh
    rw [hst]
    rfl
  | false =>
    simp only [Bool.false_eq_true, if_false]
    rw [lookupSt_append]
    rw [hasSite_eq_isSome] at hh
    have hnone : lookupSt dbst sid = none := by
      cases hl : lookupSt dbst sid with
      | none => rfl
      | some st => rw [hl] at hh; cases hh
    rw [hnone]
    unfold lookupSt
    rw [List.find?]
    rw [newStation_site_id]
    rw [beq_self_eq_true]

theorem lookupSt_upsert_other (dbst : List StationR) (sid n : String)
    (c : Option String) (la lo : Option ℚ) (rg : String)
    (sid2 : String) (hne : sid2 ≠ sid) :
    lookupSt (upsertStation dbst sid n c la lo rg) sid2 =
      lookupSt dbst sid2 := by
  unfold upsertStation
  cases hh : hasSite dbst sid with
  | true =>
    simp only [if_true]
    exact lookupSt_updateFirstMeta_other dbst sid n c la lo rg sid2 hne
  | false =>
    simp only [Bool.false_eq_true, if_false]
    rw [lookupSt_append]
    cases hl : lookupSt dbst sid2 with
    | some st => rfl
    | none =>
      unfold lookupSt
      rw [List.find?]
      rw [newStation_site_id]
      have : (sid == sid2) = false := by
        cases hb : sid == sid2 with
        | true => exact absurd (beq_iff_eq.mp hb).symm hne
        | false => rfl
      rw [this]
      rfl

theorem hasSite_upsert_self (dbst : List StationR) (sid n : String)
    (c : Option String) (la lo : Option ℚ) (rg : String) :
    hasSite (upsertStation dbst sid n c la lo rg) sid = true := by
  rw [hasSite_eq_isSome, lookupSt_upsert_self]
  rfl

theorem hasSite_upsert_mono (dbst : List StationR) (sid n : String)
    (c : Option String) (la lo : Option ℚ) (rg : String)
    (sid2 : String) (h : hasSite dbst sid2 = true) :
    hasSite (upsertStation dbst sid n c la lo rg) sid2 = true := by
  by_cases hs : sid2 = sid
  · rw [hs]
    exact hasSite_upsert_self dbst sid n c la lo rg
  · rw [hasSite_eq_isSome, lookupSt_upsert_other dbst sid n c la lo rg
      sid2 hs, ← hasSite_eq_isSome]
    exact h

theorem length_upsert_of_present (dbst : List StationR) (sid n : String)
    (c : Option String) (la lo : Option ℚ) (rg : String)
    (h : hasSite dbst sid = true) :
    (upsertStation dbst sid n c la lo rg).length = dbst.length := by
  unfold upsertStation
  rw [h]
  simp only [if_true]
  exact length_updateFirstMeta dbst sid n c la lo rg

theorem lookupSt_stationAct (dbst : List StationR) (r : StationRecord)
    (sid : String) :
    lookupSt (stationAct dbst r) sid =
      if keyedAs r sid then some (metaOf r (lookupSt dbst sid))
      else lookupSt dbst sid := by
  unfold stationAct
  cases he : (pyTruthy r.siteid && pyTruthy r.sitename) with
  | false =>
    have hk : keyedAs r sid = false := by
      unfold keyedAs effRec
      rw [he]
      rfl
    rw [hk]
    simp
  | true =>
    simp only [if_true]
    by_cases hs : strVal r.siteid = sid
    · have hk : keyedAs r sid = true := by
        unfold keyedAs effRec
        rw [he, hs, beq_self_eq_true]
        rfl
      rw [hk, if_pos rfl, ← hs, lookupSt_upsert_self]
      cases lookupSt dbst (strVal r.siteid) <;> rfl
    · have hk : keyedAs r sid = false := by
        unfold keyedAs effRec
        rw [he]
        have : (strVal r.siteid == sid) = false := by
          cases hb : strVal r.siteid == sid with
          | true => exact absurd (beq_iff_eq.mp hb) hs
          | false => rfl
        rw [this]
        rfl
      rw [hk]
      simp only [Bool.false_eq_true, if_false]
      exact lookupSt_upsert_other dbst (strVal r.siteid) (strVal r.sitename)
        r.county ((parseCoord r.twd97lat).getD none)
        ((parseCoord r.twd97lon).getD none) (regionOf r.county) sid
        (fun hcontra => hs hcontra.symm)

theorem hasSite_stationAct_mono (dbst : List StationR) (r : StationRecord)
    (sid : String) (h : hasSite dbst sid = true) :
    hasSite (stationAct dbst r) sid = true := by
  unfold stationAct
  cases he : (pyTruthy r.siteid && pyTruthy r.sitename) with
  | false => simpa using h
  | true =>
    simp only [if_true]
    exact hasSite_upsert_mono dbst (strVal r.siteid) (strVal r.sitename)
      r.county ((parseCoord r.twd97lat).getD none)
      ((parseCoord r.twd97lon).getD none) (regionOf r.county) sid h

theorem hasSite_stationAct_self (dbst : List StationR) (r : StationRecord)
    (he : effRec r = true) :
    hasSite (stationAct dbst r) (strVal r.siteid) = true := by
  unfold stationAct
  unfold effRec at he
  rw [he]
  simp only [if_true]
  exact hasSite_upsert_self dbst (strVal r.siteid) (strVal r.sitename)
    r.county ((parseCoord r.twd97lat).getD none)
    ((parseCoord r.twd97lon).getD none) (regionOf r.county)

theorem hasSite_foldl_mono (rs : List StationRecord) (dbst : List StationR)
    (sid : String) (h : hasSite dbst sid = true) :
    hasSite (rs.foldl stationAct dbst) sid = true := by
  induction rs generalizing dbst with
  | nil => exact h
  | cons r rs ih =>
    rw [List.foldl_cons]
    exact ih (stationAct dbst r) (hasSite_stationAct_mono dbst r sid h)

theorem hasSite_foldl_of_mem (rs : List StationRecord)
    (dbst : List StationR) (r : StationRecord) (hmem : r ∈ rs)
    (he : effRec r = true) :
    hasSite (rs.foldl stationAct dbst) (strVal r.siteid) = true := by
  induction rs generalizing dbst with
  | nil => exact absurd hmem (List.not_mem_nil r)
  | cons r2 rs ih =>
    rw [List.foldl_cons]
    rcases List.mem_cons.mp hmem with h1 | h1
    · subst h1
      exact hasSite_foldl_mono rs (stationAct dbst r) (strVal r.siteid)
        (hasSite_stationAct_self dbst r he)
    · exact ih (stationAct dbst r2) h1

theorem length_stationAct_of_present (dbst : List StationR)
    (r : StationRecord)
    (h : effRec r = true → hasSite dbst (strVal r.siteid) = true) :
    (stationAct dbst r).length = dbst.length := by
  unfold stationAct
  cases he : (pyTruthy r.siteid && pyTruthy r.sitename) with
  | false => simp
  | true =>
    simp only [if_true]
    exact length_upsert_of_present dbst (strVal r.siteid)
      (strVal r.sitename) r.county ((parseCoord r.twd97lat).getD none)
      ((parseCoord r.twd97lon).getD none) (regionOf r.county) (h he)

theorem length_foldl_stationAct (rs : List StationRecord)
    (dbst : List StationR)
    (h : ∀ r ∈ rs, effRec r = true →
      hasSite dbst (strVal r.siteid) = true) :
    (rs.foldl stationAct dbst).length = dbst.length := by
  induction rs generalizing dbst with
  | nil => rfl
  | cons r rs ih =>
    rw [List.foldl_cons]
    have hr : (stationAct dbst r).length = dbst.length :=
      length_stationAct_of_present dbst r (h r (by simp))
    rw [ih (stationAct dbst r)
      (fun r2 h2 he2 => hasSite_stationAct_mono dbst r (strVal r2.siteid)
        (h r2 (by simp [h2]) he2)), hr]

theorem lastMeta_append (rs : List StationRecord) (r : StationRecord)
    (sid : String) :
    lastMeta (rs ++ [r]) sid =
      if keyedAs r sid then some r else lastMeta rs sid := by
  unfold lastMeta
  rw [List.foldl_append]
  rfl

theorem lastMeta_keyed (rs : List StationRecord) (sid : String) :
    ∀ (acc : Option StationRecord),
      (∀ r0, acc = some r0 → keyedAs r0 sid = true) →
      ∀ r2, rs.foldl (fun a r => if keyedAs r sid then some r else a) acc =
        some r2 → keyedAs r2 sid = true := by
  induction rs with
  | nil =>
    intro acc hacc r2 h
    exact hacc r2 h
  | cons r rs ih =>
    intro acc hacc r2 h
    rw [List.foldl_cons] at h
    refine ih _ ?_ r2 h
    intro r0 h0
    cases hk : keyedAs r sid with
    | true =>
      rw [hk] at h0
      simp only [if_true] at h0
      rw [← Option.some.inj h0]
      exact hk
    | false =>
      rw [hk] at h0
      simp only [Bool.false_eq_true, if_false] at h0
      exact hacc r0 h0

theorem keyedAs_siteid (r : StationRecord) (sid : String)
    (h : keyedAs r sid = true) : strVal r.siteid = sid := by
  unfold keyedAs at h
  exact beq_iff_eq.mp ((Bool.and_eq_true _ _).mp h).2

theorem metaOf_absorb (r r2 : StationRecord) (o : Option StationR)
    (hss : strVal r2.siteid = strVal r.siteid) :
    metaOf r (some (metaOf r2 o)) = metaOf r o := by
  cases o with
  | some st => rfl
  | none =>
    unfold metaOf newStation setMeta
    simp [hss]

theorem lookupSt_foldl_stationAct (dbst : List StationR) (sid : String)
    (rs : List StationRecord) :
    lookupSt (rs.foldl stationAct dbst) sid =
      match lastMeta rs sid with
      | none => lookupSt dbst sid
      | some r => some (metaOf r (lookupSt dbst sid)) := by
  induction rs using List.reverseRecOn with
  | nil => rfl
  | append_singleton l x ih =>
    rw [List.foldl_append, List.foldl_cons, List.foldl_nil,
      lookupSt_stationAct, lastMeta_append]
    cases hk : keyedAs x sid with
    | false =>
      simp only [Bool.false_eq_true, if_false]
      exact ih
    | true =>
      simp only [if_true]
      rw [ih]
      cases hlm : lastMeta l sid with
      | none => rfl
      | some r2 =>
        have hk2 : keyedAs r2 sid = true :=
          lastMeta_keyed l sid none (fun r0 h0 => Option.noConfusion h0)
            r2 hlm
        rw [metaOf_absorb x r2 (lookupSt dbst sid)
          ((keyedAs_siteid r2 sid hk2).trans
            (keyedAs_siteid x sid hk).symm)]

/-- C4: running `fetch_and_store_all_stations` a second time on the exact
same decoded `records` array, starting from the state the first run
produced, leaves the station directory unchanged: the row count is the
same and looking up any site code yields a row with exactly the same field
values. (When the batch aborts, both runs are rollback-identities and the
statement holds trivially.) -/
theorem c4_refresh_stations_idempotent (dbst : List StationR)
    (records : List StationRecord) :
    (fetch_and_store_all_stations
        (fetch_and_store_all_stations dbst records) records).length =
      (fetch_and_store_all_stations dbst records).length ∧
    ∀ sid, lookupSt (fetch_and_store_all_stations
        (fetch_and_store_all_stations dbst records) records) sid =
      lookupSt (fetch_and_store_all_stations dbst records) sid := by
  cases hall : records.all goodRecord with
  | false =>
    have h1 : ∀ (s : List StationR),
        fetch_and_store_all_stations s records = s := by
      intro s
      unfold fetch_and_store_all_stations
      rw [processStationRecords_eq, hall]
      rfl
    simp [h1]
  | true =>
    have h1 : ∀ (s : List StationR),
        fetch_and_store_all_stations s records =
          records.foldl stationAct s := by
      intro s
      unfold fetch_and_store_all_stations
      rw [processStationRecords_eq, hall]
      rfl
    rw [h1, h1]
    constructor
    · exact length_foldl_stationAct records
        (records.foldl stationAct dbst)
        (fun r hr he => hasSite_foldl_of_mem records dbst r hr he)
    · intro sid
      have e2 := lookupSt_foldl_stationAct
        (records.foldl stationAct dbst) sid records
      have e1 := lookupSt_foldl_stationAct dbst sid records
      rw [e2]
      cases hlm : lastMeta records sid with
      | none => rfl
      | some r =>
        have e1r : lookupSt (records.foldl stationAct dbst) sid =
            some (metaOf r (lookupSt dbst sid)) := by
          rw [e1, hlm]
        simp only []
        rw [e1r, metaOf_absorb r r (lookupSt dbst sid) rfl]
